import Mathlib

/-!
Verification of the navigation core of the react-hooks-interactive-demo
application: the Shell (src/App.tsx), the Sidebar selector
(src/components/Sidebar.tsx), the localStorage-backed custom hook of
UseReducerDemo.tsx, and the timer cleanup of UseRefDemo.tsx.

Identifiers are runtime strings, matching the TypeScript string-literal
union `HookType`; the Shell dispatch carries its default branch, so it is
modelled over all of `String`.
-/

/-- A panel element as produced by the Shell dispatch in App.tsx: one of
the ten imported demo components, or the inline placeholder div of the
default branch. -/
inductive Panel where
  | useStateDemo
  | useEffectDemo
  | useContextDemo
  | useReducerDemo
  | useCallbackDemo
  | useMemoDemo
  | useRefDemo
  | useImperativeHandleDemo
  | useLayoutEffectDemo
  | useDebugValueDemo
  | placeholder
  deriving DecidableEq, Repr

/-- The identity of a rendered panel element: the imported component name
for the ten demo panels, the literal text of the placeholder div for the
default branch. -/
def Panel.componentName : Panel → String
  | Panel.useStateDemo => "UseStateDemo"
  | Panel.useEffectDemo => "UseEffectDemo"
  | Panel.useContextDemo => "UseContextDemo"
  | Panel.useReducerDemo => "UseReducerDemo"
  | Panel.useCallbackDemo => "UseCallbackDemo"
  | Panel.useMemoDemo => "UseMemoDemo"
  | Panel.useRefDemo => "UseRefDemo"
  | Panel.useImperativeHandleDemo => "UseImperativeHandleDemo"
  | Panel.useLayoutEffectDemo => "UseLayoutEffectDemo"
  | Panel.useDebugValueDemo => "UseDebugValueDemo"
  | Panel.placeholder => "Hook demo coming soon..."

/-- The Shell dispatch `renderHookDemo` of App.tsx lines 22-47 (the spec
calls it `renderActivePanel`): a switch on the selected id, with a default
branch returning the placeholder element. -/
def renderHookDemo (selectedHook : String) : Panel :=
  if selectedHook = "useState" then Panel.useStateDemo
  else if selectedHook = "useEffect" then Panel.useEffectDemo
  else if selectedHook = "useContext" then Panel.useContextDemo
  else if selectedHook = "useReducer" then Panel.useReducerDemo
  else if selectedHook = "useCallback" then Panel.useCallbackDemo
  else if selectedHook = "useMemo" then Panel.useMemoDemo
  else if selectedHook = "useRef" then Panel.useRefDemo
  else if selectedHook = "useImperativeHandle" then Panel.useImperativeHandleDemo
  else if selectedHook = "useLayoutEffect" then Panel.useLayoutEffectDemo
  else if selectedHook = "useDebugValue" then Panel.useDebugValueDemo
  else Panel.placeholder

/-- The navigation state owned by the Shell: App.tsx lines 19-20. -/
structure NavState where
  selected : String
  sidebarOpen : Bool
  deriving DecidableEq, Repr

/-- Initial state at mount: `useState("useState")` and `useState(false)`
in App.tsx lines 19-20. -/
def initialNavState : NavState := { selected := "useState", sidebarOpen := false }

/-- The Shell selection callback `setSelectedHook`, passed to the Sidebar
as `onHookSelect` (App.tsx line 75). -/
def selectTopic (id : String) (s : NavState) : NavState := { s with selected := id }

/-- The header menu button handler `setSidebarOpen(!sidebarOpen)` of
App.tsx line 58. -/
def toggleSidebar (s : NavState) : NavState := { s with sidebarOpen := !s.sidebarOpen }

/-- The Shell close callback `setSidebarOpen(false)`, passed to the
Sidebar as `onClose` (App.tsx line 77). -/
def closeSidebar (s : NavState) : NavState := { s with sidebarOpen := false }

/-- The main content area of App.tsx line 68 mounts the single result of
the dispatch, so the list of mounted panels is a one-element list. -/
def renderedPanels (s : NavState) : List Panel := [renderHookDemo s.selected]

/-- A catalog entry, Sidebar.tsx lines 15-20. The category is the runtime
string carried by the entry. -/
structure HookInfo where
  id : String
  name : String
  description : String
  category : String
  deriving DecidableEq, Repr

/-- The static catalog `hooks` of Sidebar.tsx lines 22-83, in source
order. -/
def hooks : List HookInfo :=
  [ { id := "useState", name := "useState",
      description := "Manage component state", category := "Basic" },
    { id := "useEffect", name := "useEffect",
      description := "Handle side effects", category := "Basic" },
    { id := "useContext", name := "useContext",
      description := "Access React context", category := "Basic" },
    { id := "useReducer", name := "useReducer",
      description := "Complex state management", category := "Advanced" },
    { id := "useCallback", name := "useCallback",
      description := "Memoize callbacks", category := "Performance" },
    { id := "useMemo", name := "useMemo",
      description := "Memoize expensive calculations", category := "Performance" },
    { id := "useRef", name := "useRef",
      description := "Access DOM elements", category := "Advanced" },
    { id := "useImperativeHandle", name := "useImperativeHandle",
      description := "Customize ref exposure", category := "Advanced" },
    { id := "useLayoutEffect", name := "useLayoutEffect",
      description := "Synchronous effects", category := "Advanced" },
    { id := "useDebugValue", name := "useDebugValue",
      description := "Display debug info", category := "Advanced" } ]

/-- The ten catalog ids, in catalog order. -/
def catalogIds : List String := hooks.map HookInfo.id

/-- The category to badge style switch `getCategoryColor` of Sidebar.tsx
lines 85-96, including its default branch. -/
def getCategoryColor (category : String) : String :=
  if category = "Basic" then "bg-green-100 text-green-800 hover:bg-green-200"
  else if category = "Advanced" then "bg-blue-100 text-blue-800 hover:bg-blue-200"
  else if category = "Performance" then "bg-purple-100 text-purple-800 hover:bg-purple-200"
  else "bg-gray-100 text-gray-800 hover:bg-gray-200"

/-- An outbound callback invocation of the Sidebar: either the Shell
selection callback `onHookSelect` applied to an id, or the close callback
`onClose`. -/
inductive SidebarEvent where
  | hookSelect (id : String)
  | close
  deriving DecidableEq, Repr

/-- Whether an event is a selection-callback invocation. -/
def SidebarEvent.isSelect : SidebarEvent → Bool
  | SidebarEvent.hookSelect _ => true
  | SidebarEvent.close => false

/-- The row click handler of Sidebar.tsx lines 136-139: it calls
`onHookSelect(hook.id)` and then `onClose()`, in that order. The trace
lists the callback invocations in program order. -/
def rowOnClick (hook : HookInfo) : List SidebarEvent :=
  [SidebarEvent.hookSelect hook.id, SidebarEvent.close]

/-- The overlay click handler of Sidebar.tsx lines 103-106: it calls
`onClose` only. -/
def overlayOnClick : List SidebarEvent := [SidebarEvent.close]

/-- The overlay div is rendered exactly when `isOpen` holds:
Sidebar.tsx line 102. -/
def overlayRendered (isOpen : Bool) : Bool := isOpen

/-- How the Shell interprets one Sidebar callback invocation, from the
wiring of App.tsx lines 73-78: `onHookSelect` is `setSelectedHook` and
`onClose` is `setSidebarOpen(false)`. -/
def applySidebarEvent (s : NavState) : SidebarEvent → NavState
  | SidebarEvent.hookSelect id => { s with selected := id }
  | SidebarEvent.close => { s with sidebarOpen := false }

/-- Running a trace of Sidebar callback invocations against the Shell
state, in order. -/
def runEvents (s : NavState) (es : List SidebarEvent) : NavState :=
  es.foldl applySidebarEvent s

/-- What one rendered Sidebar row displays, from the row markup of
Sidebar.tsx lines 134-162: the key, the name in the code element, the
badge text and badge style, the description, and the selection
highlight. -/
structure SidebarRow where
  key : String
  name : String
  badgeText : String
  badgeClass : String
  description : String
  isSelected : Bool
  deriving DecidableEq, Repr

/-- Rendering one catalog entry to a row, Sidebar.tsx lines 134-162. -/
def renderSidebarRow (selectedHook : String) (hook : HookInfo) : SidebarRow :=
  { key := hook.id, name := hook.name, badgeText := hook.category,
    badgeClass := getCategoryColor hook.category,
    description := hook.description,
    isSelected := selectedHook == hook.id }

/-- The Sidebar list rendering, Sidebar.tsx line 133: one row per catalog
entry, by mapping over `hooks`. -/
def renderSidebarList (selectedHook : String) : List SidebarRow :=
  hooks.map (renderSidebarRow selectedHook)

/-- C5: at initial mount the navigation state has selected equal to
"useState" (the first catalog entry), the sidebar closed, and the
rendered panel is the useState panel. -/
theorem initial_mount_state :
    initialNavState.selected = "useState" ∧
    catalogIds.head? = some initialNavState.selected ∧
    initialNavState.sidebarOpen = false ∧
    renderedPanels initialNavState = [Panel.useStateDemo] := by
  refine ⟨rfl, rfl, rfl, rfl⟩

/-- C10: the mounted panel depends only on the selected id, not on the
sidebar flag; toggling or closing the sidebar never changes which panel
is mounted. -/
theorem mounted_panel_independent_of_sidebar (sel : String) (b1 b2 : Bool) :
    renderedPanels ⟨sel, b1⟩ = renderedPanels ⟨sel, b2⟩ ∧
    renderedPanels (toggleSidebar ⟨sel, b1⟩) = renderedPanels ⟨sel, b1⟩ ∧
    renderedPanels (closeSidebar ⟨sel, b1⟩) = renderedPanels ⟨sel, b1⟩ :=
  ⟨rfl, rfl, rfl⟩

/-- C6: on the ten catalog ids the dispatch returns pairwise distinct
panels, each with a non-empty element identity, and none of them is the
placeholder. -/
theorem catalog_panels_distinct_nonempty :
    (catalogIds.map renderHookDemo).Nodup ∧
    (catalogIds.map renderHookDemo).length = 10 ∧
    ((catalogIds.map renderHookDemo).all
      (fun p => !(p.componentName == "") && !(p == Panel.placeholder))) = true := by
  refine ⟨by decide, by decide, by decide⟩

/-- C1: the dispatch is total, and on any id outside the ten catalog ids
it returns the explicit placeholder element rather than failing. -/
theorem renderHookDemo_outside_catalog_placeholder (id : String)
    (h : id ∉ catalogIds) : renderHookDemo id = Panel.placeholder := by
  unfold renderHookDemo
  split_ifs with h1 h2 h3 h4 h5 h6 h7 h8 h9 h10 <;>
    first
      | rfl
      | (subst_vars; exact absurd (by decide) h)

/-- Witness for C1 at a concrete id outside the catalog. -/
theorem renderHookDemo_outside_catalog_placeholder_witness :
    ("useTelemetry" : String) ∉ catalogIds ∧
    renderHookDemo "useTelemetry" = Panel.placeholder :=
  ⟨by decide, renderHookDemo_outside_catalog_placeholder "useTelemetry" (by decide)⟩

/-- C4: the Sidebar renders one row per catalog entry, in the fixed
catalog order with the listed categories, with distinct keys, and the
category to style mapping is Basic to green, Advanced to blue,
Performance to purple, with any unrecognized category mapped to the gray
default style. -/
theorem sidebar_rows_order_categories_colors (sel : String) :
    (renderSidebarList sel).map SidebarRow.key =
      ["useState", "useEffect", "useContext", "useReducer", "useCallback",
       "useMemo", "useRef", "useImperativeHandle", "useLayoutEffect",
       "useDebugValue"] ∧
    (renderSidebarList sel).length = hooks.length ∧
    ((renderSidebarList sel).map SidebarRow.key).Nodup ∧
    (renderSidebarList sel).map SidebarRow.badgeText =
      ["Basic", "Basic", "Basic", "Advanced", "Performance", "Performance",
       "Advanced", "Advanced", "Advanced", "Advanced"] ∧
    getCategoryColor "Basic" = "bg-green-100 text-green-800 hover:bg-green-200" ∧
    getCategoryColor "Advanced" = "bg-blue-100 text-blue-800 hover:bg-blue-200" ∧
    getCategoryColor "Performance" = "bg-purple-100 text-purple-800 hover:bg-purple-200" ∧
    (∀ c : String, c ≠ "Basic" → c ≠ "Advanced" → c ≠ "Performance" →
      getCategoryColor c = "bg-gray-100 text-gray-800 hover:bg-gray-200") := by
  refine ⟨rfl, rfl, ?_, rfl, rfl, rfl, rfl, ?_⟩
  · show (["useState", "useEffect", "useContext", "useReducer", "useCallback",
      "useMemo", "useRef", "useImperativeHandle", "useLayoutEffect",
      "useDebugValue"] : List String).Nodup
    decide
  intro c h1 h2 h3
  unfold getCategoryColor
  rw [if_neg h1, if_neg h2, if_neg h3]

/-- Witness for C4 at a concrete selected id and a concrete unrecognized
category. -/
theorem sidebar_rows_order_categories_colors_witness :
    ("Esoteric" : String) ≠ "Basic" ∧
    getCategoryColor "Esoteric" = "bg-gray-100 text-gray-800 hover:bg-gray-200" ∧
    (renderSidebarList "useState").map SidebarRow.badgeText =
      ["Basic", "Basic", "Basic", "Advanced", "Performance", "Performance",
       "Advanced", "Advanced", "Advanced", "Advanced"] :=
  ⟨by decide,
   (sidebar_rows_order_categories_colors "useState").2.2.2.2.2.2.2 "Esoteric"
     (by decide) (by decide) (by decide),
   (sidebar_rows_order_categories_colors "useState").2.2.2.1⟩

/-- C2: a click on the row of any catalog entry emits exactly one
selection-callback invocation, carrying that entry id, and exactly one
close-callback invocation, with the selection before the close; run
against the Shell wiring, the click sets the selected id and closes the
sidebar. -/
theorem row_click_select_then_close :
    ∀ hook ∈ hooks,
      rowOnClick hook = [SidebarEvent.hookSelect hook.id, SidebarEvent.close] ∧
      (rowOnClick hook).count (SidebarEvent.hookSelect hook.id) = 1 ∧
      (rowOnClick hook).count SidebarEvent.close = 1 ∧
      (rowOnClick hook).indexOf (SidebarEvent.hookSelect hook.id) <
        (rowOnClick hook).indexOf SidebarEvent.close ∧
      ∀ s : NavState, runEvents s (rowOnClick hook) =
        { selected := hook.id, sidebarOpen := false } := by
  intro hook hmem
  fin_cases hmem <;>
    exact ⟨rfl, by decide, by decide, by decide, fun s => rfl⟩

/-- Witness for C2 at the first catalog entry. -/
theorem row_click_select_then_close_witness :
    ({ id := "useState", name := "useState",
       description := "Manage component state", category := "Basic" } : HookInfo) ∈ hooks ∧
    runEvents initialNavState
      (rowOnClick { id := "useState", name := "useState",
                    description := "Manage component state", category := "Basic" }) =
      { selected := "useState", sidebarOpen := false } :=
  ⟨by decide,
   (row_click_select_then_close
     { id := "useState", name := "useState",
       description := "Manage component state", category := "Basic" }
     (by decide)).2.2.2.2 initialNavState⟩

/-- C7: the overlay is rendered exactly when the sidebar is open, its
click handler emits no selection-callback invocation, and running it
against the Shell wiring leaves the selected id unchanged and closes the
sidebar. -/
theorem overlay_click_only_closes (s : NavState) (isOpen : Bool) :
    overlayRendered isOpen = isOpen ∧
    (overlayOnClick.all fun e => !e.isSelect) = true ∧
    (runEvents s overlayOnClick).selected = s.selected ∧
    (runEvents s overlayOnClick).sidebarOpen = false :=
  ⟨rfl, rfl, rfl, rfl⟩

/-- Reachable navigation states of the Shell: the initial mount state,
closed under the selection callback restricted to catalog ids (its only
caller is the Sidebar, which passes catalog entries), the header toggle,
the close callback, a Sidebar row click, and an overlay click. -/
inductive NavReachable : NavState → Prop where
  | init : NavReachable initialNavState
  | select {s : NavState} {id : String} (hs : NavReachable s)
      (hid : id ∈ catalogIds) : NavReachable (selectTopic id s)
  | toggle {s : NavState} (hs : NavReachable s) : NavReachable (toggleSidebar s)
  | close {s : NavState} (hs : NavReachable s) : NavReachable (closeSidebar s)
  | rowClick {s : NavState} {hook : HookInfo} (hs : NavReachable s)
      (hh : hook ∈ hooks) : NavReachable (runEvents s (rowOnClick hook))
  | overlayClick {s : NavState} (hs : NavReachable s) :
      NavReachable (runEvents s overlayOnClick)

/-- C3: in every reachable navigation state the selected id is one of the
ten catalog ids, and exactly one panel is mounted. -/
theorem reachable_selected_in_catalog (s : NavState) (h : NavReachable s) :
    s.selected ∈ catalogIds ∧ (renderedPanels s).length = 1 := by
  induction h with
  | init => exact ⟨by decide, rfl⟩
  | select hs hid ih => exact ⟨hid, rfl⟩
  | toggle hs ih => exact ⟨ih.1, rfl⟩
  | close hs ih => exact ⟨ih.1, rfl⟩
  | @rowClick s hook hs hh ih =>
      exact ⟨List.mem_map_of_mem HookInfo.id hh, rfl⟩
  | overlayClick hs ih => exact ⟨ih.1, rfl⟩

/-- Witness for C3 at a reachable state two steps from mount. -/
theorem reachable_selected_in_catalog_witness :
    (toggleSidebar initialNavState).selected ∈ catalogIds ∧
    (renderedPanels (toggleSidebar initialNavState)).length = 1 :=
  reachable_selected_in_catalog (toggleSidebar initialNavState)
    (NavReachable.toggle NavReachable.init)

/-- The mount-time initializer of the custom hook `useLocalStorage` in
UseReducerDemo.tsx lines 1082-1091. The stored value read by
`window.localStorage.getItem(key)` is the `item` argument (absent key
gives `none`); the external `JSON.parse`, which throws on malformed
input, is the `jsonParse` argument returning `none` where it would
throw. The source checks `item` for truthiness (null and the empty
string are falsy) and catches any parse failure, returning the
caller-supplied default. -/
def useLocalStorageInit {T : Type} (jsonParse : String → Option T)
    (item : Option String) (initialValue : T) : T :=
  match item with
  | none => initialValue
  | some s =>
    if s = "" then initialValue
    else
      match jsonParse s with
      | some v => v
      | none => initialValue

/-- C8: for every stored value and caller-supplied default, the
localStorage-backed hook returns the parsed stored value when parsing
succeeds, and returns the default without throwing when the stored value
is absent or malformed. The hypothesis records that a JSON parse of the
empty string never succeeds (JSON.parse throws on it). -/
theorem useLocalStorage_init_defensive {T : Type}
    (jsonParse : String → Option T) (initialValue : T)
    (hempty : jsonParse "" = none) :
    useLocalStorageInit jsonParse none initialValue = initialValue ∧
    (∀ s v, jsonParse s = some v →
      useLocalStorageInit jsonParse (some s) initialValue = v) ∧
    (∀ s, jsonParse s = none →
      useLocalStorageInit jsonParse (some s) initialValue = initialValue) := by
  refine ⟨rfl, ?_, ?_⟩
  · intro s v hv
    by_cases hs : s = ""
    · subst hs
      rw [hempty] at hv
      exact absurd hv (by simp)
    · simp [useLocalStorageInit, hs, hv]
  · intro s hn
    by_cases hs : s = ""
    · simp [useLocalStorageInit, hs]
    · simp [useLocalStorageInit, hs, hn]

/-- A concrete stand-in for the external JSON parser, used only to
instantiate the C8 theorem. -/
def natParseDemo : String → Option Nat :=
  fun s => if s = "42" then some 42 else none

/-- Witness for C8: absent value, well-formed stored value, and corrupted
stored value, against a concrete parser and default. -/
theorem useLocalStorage_init_defensive_witness :
    natParseDemo "" = none ∧
    useLocalStorageInit natParseDemo none 7 = 7 ∧
    useLocalStorageInit natParseDemo (some "42") 7 = 42 ∧
    useLocalStorageInit natParseDemo (some "corrupted") 7 = 7 := by
  have h := useLocalStorage_init_defensive natParseDemo 7 (by decide)
  exact ⟨by decide, h.1, h.2.1 "42" 42 (by decide), h.2.2 "corrupted" (by decide)⟩


/-- The browser table of live asynchronous callbacks registered by the
panel: intervals, timeouts, the window scroll listener, and the
IntersectionObserver, each under a numeric handle, plus a fresh-handle
counter. Modelled from the spec (section 5): the platform setInterval
and setTimeout schedule a callback and return its id, clearInterval and
clearTimeout cancel one, addEventListener and observe register a
callback, removeEventListener and disconnect deregister it. Handles
start at 1, as browser timer ids are positive. -/
structure ResourceEnv where
  live : List Nat
  next : Nat
  deriving DecidableEq, Repr

/-- Registering a callback (setInterval, setTimeout, addEventListener,
observe): returns the fresh handle and the updated table. -/
def allocateResource (env : ResourceEnv) : Nat × ResourceEnv :=
  (env.next, { live := env.next :: env.live, next := env.next + 1 })

/-- Deregistering a handle (clearInterval, clearTimeout,
removeEventListener, disconnect); a no-op on handles that are not
live. -/
def releaseResource (t : Nat) (env : ResourceEnv) : ResourceEnv :=
  { live := env.live.filter (fun x => x != t), next := env.next }

/-- Deregistering the handle held in a nullable ref, when it is set. -/
def releaseOpt (o : Option Nat) (env : ResourceEnv) : ResourceEnv :=
  match o with
  | some t => releaseResource t env
  | none => env

/-- The asynchronous-callback state of the UseRefDemo panel and its
VideoPlayer child: the two nullable timer refs of UseRefDemo.tsx lines
92 and 125 with the state fields their callbacks touch, the window
scroll listener of lines 182-188 with the position it stores, the
IntersectionObserver of lines 245-258 with the visibility flag it
stores, and the VideoPlayer child state of lines 31-65 with the
time-update interval its effect registers while playing. -/
structure UseRefDemoState where
  timerRef : Option Nat
  autoSaveTimeoutRef : Option Nat
  isRunning : Bool
  seconds : Nat
  autoSaveText : String
  lastSavedSet : Bool
  scrollListener : Option Nat
  scrollPosition : Nat
  observerHandle : Option Nat
  isVisible : Bool
  videoIsPlaying : Bool
  videoCurrentTime : Nat
  videoIntervalHandle : Option Nat
  deriving DecidableEq, Repr

/-- The empty callback table before the panel mounts. -/
def initialResourceEnv : ResourceEnv := { live := [], next := 1 }

/-- Mounting the panel. The VideoPlayer child mounts with isPlaying
false, so its effect registers nothing (UseRefDemo.tsx lines 52-65);
the scroll effect adds the window scroll listener (line 186); the
observer effect creates and attaches the IntersectionObserver (lines
246-255); the cleanup effect of lines 277-286 registers nothing. Both
timer refs start null and the stopwatch stopped. -/
def mountUseRefDemo : UseRefDemoState × ResourceEnv :=
  let pScroll := allocateResource initialResourceEnv
  let pObserver := allocateResource pScroll.2
  ({ timerRef := none, autoSaveTimeoutRef := none, isRunning := false,
     seconds := 0, autoSaveText := "", lastSavedSet := false,
     scrollListener := some pScroll.1, scrollPosition := 0,
     observerHandle := some pObserver.1, isVisible := false,
     videoIsPlaying := false, videoCurrentTime := 0,
     videoIntervalHandle := none }, pObserver.2)

/-- The startTimer handler of UseRefDemo.tsx lines 142-149: when not
running, set running and store a fresh interval handle in timerRef. -/
def startTimer : UseRefDemoState × ResourceEnv → UseRefDemoState × ResourceEnv
  | (s, env) =>
    if s.isRunning then (s, env)
    else
      let p := allocateResource env
      ({ s with isRunning := true, timerRef := some p.1 }, p.2)

/-- The stopTimer handler of UseRefDemo.tsx lines 151-157: when
timerRef is set, clear the interval, null the ref, and stop. -/
def stopTimer : UseRefDemoState × ResourceEnv → UseRefDemoState × ResourceEnv
  | (s, env) =>
    match s.timerRef with
    | some t => ({ s with timerRef := none, isRunning := false }, releaseResource t env)
    | none => (s, env)

/-- The resetTimer handler of UseRefDemo.tsx lines 159-162: stop, then
zero the seconds. -/
def resetTimer (c : UseRefDemoState × ResourceEnv) : UseRefDemoState × ResourceEnv :=
  ({ (stopTimer c).1 with seconds := 0 }, (stopTimer c).2)

/-- The handleAutoSaveChange handler of UseRefDemo.tsx lines 261-274:
store the text, clear any pending auto-save timeout, and schedule a
fresh one in autoSaveTimeoutRef. -/
def handleAutoSaveChange (v : String) :
    UseRefDemoState × ResourceEnv → UseRefDemoState × ResourceEnv
  | (s, env) =>
    let env1 := releaseOpt s.autoSaveTimeoutRef env
    let p := allocateResource env1
    ({ s with autoSaveText := v, autoSaveTimeoutRef := some p.1 }, p.2)

/-- The stopwatch interval callback of UseRefDemo.tsx lines 145-147
firing: a live interval held in timerRef increments the seconds and
stays live. -/
def intervalTick : UseRefDemoState × ResourceEnv → UseRefDemoState × ResourceEnv
  | (s, env) =>
    match s.timerRef with
    | some t =>
        if t ∈ env.live then ({ s with seconds := s.seconds + 1 }, env)
        else (s, env)
    | none => (s, env)

/-- The auto-save timeout callback of UseRefDemo.tsx lines 270-273
firing: a live timeout held in autoSaveTimeoutRef records the save and
is spent. -/
def autoSaveFire : UseRefDemoState × ResourceEnv → UseRefDemoState × ResourceEnv
  | (s, env) =>
    match s.autoSaveTimeoutRef with
    | some t =>
        if t ∈ env.live then ({ s with lastSavedSet := true }, releaseResource t env)
        else (s, env)
    | none => (s, env)

/-- The window scroll listener handleScroll of UseRefDemo.tsx lines
183-185 firing while registered: it stores the scroll offset. -/
def handleScrollFire (y : Nat) :
    UseRefDemoState × ResourceEnv → UseRefDemoState × ResourceEnv
  | (s, env) =>
    match s.scrollListener with
    | some t =>
        if t ∈ env.live then ({ s with scrollPosition := y }, env)
        else (s, env)
    | none => (s, env)

/-- The IntersectionObserver callback of UseRefDemo.tsx lines 247-249
firing while attached: it stores the visibility flag. -/
def observerFire (vis : Bool) :
    UseRefDemoState × ResourceEnv → UseRefDemoState × ResourceEnv
  | (s, env) =>
    match s.observerHandle with
    | some t =>
        if t ∈ env.live then ({ s with isVisible := vis }, env)
        else (s, env)
    | none => (s, env)

/-- The VideoPlayer imperative play of UseRefDemo.tsx lines 37-40:
setting isPlaying re-runs the effect of lines 52-65, which registers
the time-update interval; a second play while already playing changes
nothing. -/
def videoPlay : UseRefDemoState × ResourceEnv → UseRefDemoState × ResourceEnv
  | (s, env) =>
    if s.videoIsPlaying then (s, env)
    else
      let p := allocateResource env
      ({ s with videoIsPlaying := true, videoIntervalHandle := some p.1 }, p.2)

/-- The VideoPlayer imperative pause of UseRefDemo.tsx lines 41-44:
clearing isPlaying re-runs the effect of lines 52-65, whose cleanup
(line 63) clears the interval. -/
def videoPause : UseRefDemoState × ResourceEnv → UseRefDemoState × ResourceEnv
  | (s, env) =>
    if s.videoIsPlaying then
      ({ s with videoIsPlaying := false, videoIntervalHandle := none },
        releaseOpt s.videoIntervalHandle env)
    else (s, env)

/-- The VideoPlayer imperative seek of UseRefDemo.tsx lines 45-48: it
stores the requested time. -/
def videoSeek (time : Nat) :
    UseRefDemoState × ResourceEnv → UseRefDemoState × ResourceEnv
  | (s, env) => ({ s with videoCurrentTime := time }, env)

/-- The VideoPlayer interval callback of UseRefDemo.tsx lines 54-62
firing: at or past the mock duration of 100 it stops playback, which
re-runs the effect and clears the interval (line 63); otherwise it
advances the time and the interval stays live. -/
def videoTick : UseRefDemoState × ResourceEnv → UseRefDemoState × ResourceEnv
  | (s, env) =>
    match s.videoIntervalHandle with
    | some t =>
        if t ∈ env.live then
          if 100 ≤ s.videoCurrentTime then
            ({ s with
                videoCurrentTime := 100, videoIsPlaying := false,
                videoIntervalHandle := none }, releaseResource t env)
          else ({ s with videoCurrentTime := s.videoCurrentTime + 1 }, env)
        else (s, env)
    | none => (s, env)

/-- The VideoPlayer effect cleanup of UseRefDemo.tsx line 63: clear the
time-update interval when one is registered (when the effect last ran
with isPlaying false it registered no cleanup, and no interval is
held). -/
def videoPlayerEffectCleanup (s : UseRefDemoState) (env : ResourceEnv) : ResourceEnv :=
  releaseOpt s.videoIntervalHandle env

/-- The scroll effect cleanup of UseRefDemo.tsx line 187: remove the
window scroll listener. -/
def scrollEffectCleanup (s : UseRefDemoState) (env : ResourceEnv) : ResourceEnv :=
  releaseOpt s.scrollListener env

/-- The observer effect cleanup of UseRefDemo.tsx line 257: disconnect
the IntersectionObserver. -/
def observerEffectCleanup (s : UseRefDemoState) (env : ResourceEnv) : ResourceEnv :=
  releaseOpt s.observerHandle env

/-- The dedicated cleanup effect of UseRefDemo.tsx lines 277-286: clear
the interval held in timerRef and the timeout held in
autoSaveTimeoutRef, when set. -/
def useRefDemoCleanup (s : UseRefDemoState) (env : ResourceEnv) : ResourceEnv :=
  releaseOpt s.autoSaveTimeoutRef (releaseOpt s.timerRef env)

/-- The full release path the framework runs when the panel unmounts:
the cleanup of every registered effect of the unmounting tree — the
VideoPlayer child effect cleanup (line 63), the scroll effect cleanup
(line 187), the observer effect cleanup (line 257), and the dedicated
cleanup effect (lines 277-286). -/
def unmountUseRefDemo (c : UseRefDemoState × ResourceEnv) : ResourceEnv :=
  useRefDemoCleanup c.1
    (observerEffectCleanup c.1
      (scrollEffectCleanup c.1
        (videoPlayerEffectCleanup c.1 c.2)))

/-- Panel configurations reachable from mount by the stopwatch handlers,
the auto-save handler, the VideoPlayer imperative commands, and the
firing of every kind of registered callback. -/
inductive DemoReachable : UseRefDemoState × ResourceEnv → Prop where
  | mount : DemoReachable mountUseRefDemo
  | start {c} (h : DemoReachable c) : DemoReachable (startTimer c)
  | stop {c} (h : DemoReachable c) : DemoReachable (stopTimer c)
  | reset {c} (h : DemoReachable c) : DemoReachable (resetTimer c)
  | autoSave {c} (v : String) (h : DemoReachable c) :
      DemoReachable (handleAutoSaveChange v c)
  | tick {c} (h : DemoReachable c) : DemoReachable (intervalTick c)
  | fire {c} (h : DemoReachable c) : DemoReachable (autoSaveFire c)
  | scroll {c} (y : Nat) (h : DemoReachable c) :
      DemoReachable (handleScrollFire y c)
  | observe {c} (vis : Bool) (h : DemoReachable c) :
      DemoReachable (observerFire vis c)
  | play {c} (h : DemoReachable c) : DemoReachable (videoPlay c)
  | pause {c} (h : DemoReachable c) : DemoReachable (videoPause c)
  | seek {c} (time : Nat) (h : DemoReachable c) :
      DemoReachable (videoSeek time c)
  | vtick {c} (h : DemoReachable c) : DemoReachable (videoTick c)

/-- Invariant of the UseRefDemo panel: the stopwatch interval ref is
set only while running, the VideoPlayer interval ref is set only while
playing, and every live callback handle is held by one of the five
registration sites. -/
def DemoInv (c : UseRefDemoState × ResourceEnv) : Prop :=
  (c.1.isRunning = false → c.1.timerRef = none) ∧
  (c.1.videoIsPlaying = false → c.1.videoIntervalHandle = none) ∧
  ∀ t ∈ c.2.live,
    c.1.timerRef = some t ∨ c.1.autoSaveTimeoutRef = some t ∨
    c.1.scrollListener = some t ∨ c.1.observerHandle = some t ∨
    c.1.videoIntervalHandle = some t

theorem mem_releaseResource {t a : Nat} {env : ResourceEnv}
    (ht : t ∈ (releaseResource a env).live) : t ∈ env.live ∧ t ≠ a := by
  simp only [releaseResource, List.mem_filter, bne_iff_ne] at ht
  exact ht

theorem mem_releaseOpt {t : Nat} {o : Option Nat} {env : ResourceEnv}
    (ht : t ∈ (releaseOpt o env).live) : t ∈ env.live ∧ o ≠ some t := by
  cases o with
  | none => exact ⟨ht, by simp⟩
  | some a =>
    simp only [releaseOpt] at ht
    rcases mem_releaseResource ht with ⟨h1, h2⟩
    refine ⟨h1, ?_⟩
    intro he
    exact h2 (Option.some_inj.mp he).symm

theorem demoInv_mount : DemoInv mountUseRefDemo := by
  refine ⟨fun _ => rfl, fun _ => rfl, ?_⟩
  intro t ht
  have hl : mountUseRefDemo.2.live = [2, 1] := rfl
  rw [hl] at ht
  rcases List.mem_cons.mp ht with rfl | ht
  · exact Or.inr (Or.inr (Or.inr (Or.inl rfl)))
  · rcases List.mem_cons.mp ht with rfl | ht
    · exact Or.inr (Or.inr (Or.inl rfl))
    · simp at ht

theorem demoInv_startTimer {c : UseRefDemoState × ResourceEnv} (h : DemoInv c) :
    DemoInv (startTimer c) := by
  obtain ⟨s, env⟩ := c
  cases hr : s.isRunning with
  | true => simpa [startTimer, hr] using h
  | false =>
    have he : startTimer (s, env) =
        ({ s with isRunning := true, timerRef := some env.next },
          { live := env.next :: env.live, next := env.next + 1 }) := by
      simp [startTimer, hr, allocateResource]
    rw [he]
    refine ⟨?_, h.2.1, ?_⟩
    · intro hfalse
      simp at hfalse
    · intro t ht
      rcases List.mem_cons.mp ht with rfl | ht
      · exact Or.inl rfl
      · rcases h.2.2 t ht with hx | hx | hx | hx | hx
        · rw [h.1 hr] at hx
          exact Option.noConfusion hx
        · exact Or.inr (Or.inl hx)
        · exact Or.inr (Or.inr (Or.inl hx))
        · exact Or.inr (Or.inr (Or.inr (Or.inl hx)))
        · exact Or.inr (Or.inr (Or.inr (Or.inr hx)))

theorem demoInv_stopTimer {c : UseRefDemoState × ResourceEnv} (h : DemoInv c) :
    DemoInv (stopTimer c) := by
  obtain ⟨s, env⟩ := c
  cases hT : s.timerRef with
  | none => simpa [stopTimer, hT] using h
  | some t0 =>
    have he : stopTimer (s, env) =
        ({ s with timerRef := none, isRunning := false },
          releaseResource t0 env) := by
      simp [stopTimer, hT]
    rw [he]
    refine ⟨fun _ => rfl, h.2.1, ?_⟩
    intro t ht
    rcases mem_releaseResource ht with ⟨hmem, hne⟩
    rcases h.2.2 t hmem with hx | hx | hx | hx | hx
    · rw [hT] at hx
      exact absurd (Option.some_inj.mp hx) (Ne.symm hne)
    · exact Or.inr (Or.inl hx)
    · exact Or.inr (Or.inr (Or.inl hx))
    · exact Or.inr (Or.inr (Or.inr (Or.inl hx)))
    · exact Or.inr (Or.inr (Or.inr (Or.inr hx)))

theorem demoInv_resetTimer {c : UseRefDemoState × ResourceEnv} (h : DemoInv c) :
    DemoInv (resetTimer c) := by
  have h2 := demoInv_stopTimer h
  exact ⟨h2.1, h2.2.1, h2.2.2⟩

theorem demoInv_handleAutoSaveChange {c : UseRefDemoState × ResourceEnv}
    (v : String) (h : DemoInv c) : DemoInv (handleAutoSaveChange v c) := by
  obtain ⟨s, env⟩ := c
  cases hA : s.autoSaveTimeoutRef with
  | none =>
    have he : handleAutoSaveChange v (s, env) =
        ({ s with autoSaveText := v, autoSaveTimeoutRef := some env.next },
          { live := env.next :: env.live, next := env.next + 1 }) := by
      simp [handleAutoSaveChange, hA, releaseOpt, allocateResource]
    rw [he]
    refine ⟨h.1, h.2.1, ?_⟩
    intro t ht
    rcases List.mem_cons.mp ht with rfl | ht
    · exact Or.inr (Or.inl rfl)
    · rcases h.2.2 t ht with hx | hx | hx | hx | hx
      · exact Or.inl hx
      · rw [hA] at hx
        exact Option.noConfusion hx
      · exact Or.inr (Or.inr (Or.inl hx))
      · exact Or.inr (Or.inr (Or.inr (Or.inl hx)))
      · exact Or.inr (Or.inr (Or.inr (Or.inr hx)))
  | some a0 =>
    have he : handleAutoSaveChange v (s, env) =
        ({ s with autoSaveText := v, autoSaveTimeoutRef := some env.next },
          { live := env.next :: env.live.filter (fun x => x != a0),
            next := env.next + 1 }) := by
      simp [handleAutoSaveChange, hA, releaseOpt, releaseResource, allocateResource]
    rw [he]
    refine ⟨h.1, h.2.1, ?_⟩
    intro t ht
    rcases List.mem_cons.mp ht with rfl | ht
    · exact Or.inr (Or.inl rfl)
    · simp only [List.mem_filter, bne_iff_ne] at ht
      rcases h.2.2 t ht.1 with hx | hx | hx | hx | hx
      · exact Or.inl hx
      · rw [hA] at hx
        exact absurd (Option.some_inj.mp hx) (Ne.symm ht.2)
      · exact Or.inr (Or.inr (Or.inl hx))
      · exact Or.inr (Or.inr (Or.inr (Or.inl hx)))
      · exact Or.inr (Or.inr (Or.inr (Or.inr hx)))

theorem demoInv_intervalTick {c : UseRefDemoState × ResourceEnv} (h : DemoInv c) :
    DemoInv (intervalTick c) := by
  obtain ⟨s, env⟩ := c
  cases hT : s.timerRef with
  | none => simpa [intervalTick, hT] using h
  | some t0 =>
    by_cases hm : t0 ∈ env.live
    · have he : intervalTick (s, env) = ({ s with seconds := s.seconds + 1 }, env) := by
        simp [intervalTick, hT, hm]
      rw [he]
      exact ⟨h.1, h.2.1, h.2.2⟩
    · simpa [intervalTick, hT, hm] using h

theorem demoInv_autoSaveFire {c : UseRefDemoState × ResourceEnv} (h : DemoInv c) :
    DemoInv (autoSaveFire c) := by
  obtain ⟨s, env⟩ := c
  cases hA : s.autoSaveTimeoutRef with
  | none => simpa [autoSaveFire, hA] using h
  | some a0 =>
    by_cases hm : a0 ∈ env.live
    · have he : autoSaveFire (s, env) =
          ({ s with lastSavedSet := true }, releaseResource a0 env) := by
        simp [autoSaveFire, hA, hm]
      rw [he]
      refine ⟨h.1, h.2.1, ?_⟩
      intro t ht
      rcases mem_releaseResource ht with ⟨hmem, _⟩
      exact h.2.2 t hmem
    · simpa [autoSaveFire, hA, hm] using h

theorem demoInv_handleScrollFire {c : UseRefDemoState × ResourceEnv}
    (y : Nat) (h : DemoInv c) : DemoInv (handleScrollFire y c) := by
  obtain ⟨s, env⟩ := c
  cases hS : s.scrollListener with
  | none => simpa [handleScrollFire, hS] using h
  | some t0 =>
    by_cases hm : t0 ∈ env.live
    · have he : handleScrollFire y (s, env) =
          ({ s with scrollPosition := y }, env) := by
        simp [handleScrollFire, hS, hm]
      rw [he]
      exact ⟨h.1, h.2.1, h.2.2⟩
    · simpa [handleScrollFire, hS, hm] using h

theorem demoInv_observerFire {c : UseRefDemoState × ResourceEnv}
    (vis : Bool) (h : DemoInv c) : DemoInv (observerFire vis c) := by
  obtain ⟨s, env⟩ := c
  cases hO : s.observerHandle with
  | none => simpa [observerFire, hO] using h
  | some t0 =>
    by_cases hm : t0 ∈ env.live
    · have he : observerFire vis (s, env) =
          ({ s with isVisible := vis }, env) := by
        simp [observerFire, hO, hm]
      rw [he]
      exact ⟨h.1, h.2.1, h.2.2⟩
    · simpa [observerFire, hO, hm] using h

theorem demoInv_videoPlay {c : UseRefDemoState × ResourceEnv} (h : DemoInv c) :
    DemoInv (videoPlay c) := by
  obtain ⟨s, env⟩ := c
  cases hp : s.videoIsPlaying with
  | true => simpa [videoPlay, hp] using h
  | false =>
    have he : videoPlay (s, env) =
        ({ s with videoIsPlaying := true, videoIntervalHandle := some env.next },
          { live := env.next :: env.live, next := env.next + 1 }) := by
      simp [videoPlay, hp, allocateResource]
    rw [he]
    refine ⟨h.1, ?_, ?_⟩
    · intro hfalse
      simp at hfalse
    · intro t ht
      rcases List.mem_cons.mp ht with rfl | ht
      · exact Or.inr (Or.inr (Or.inr (Or.inr rfl)))
      · rcases h.2.2 t ht with hx | hx | hx | hx | hx
        · exact Or.inl hx
        · exact Or.inr (Or.inl hx)
        · exact Or.inr (Or.inr (Or.inl hx))
        · exact Or.inr (Or.inr (Or.inr (Or.inl hx)))
        · rw [h.2.1 hp] at hx
          exact Option.noConfusion hx

theorem demoInv_videoPause {c : UseRefDemoState × ResourceEnv} (h : DemoInv c) :
    DemoInv (videoPause c) := by
  obtain ⟨s, env⟩ := c
  cases hp : s.videoIsPlaying with
  | false => simpa [videoPause, hp] using h
  | true =>
    have he : videoPause (s, env) =
        ({ s with videoIsPlaying := false, videoIntervalHandle := none },
          releaseOpt s.videoIntervalHandle env) := by
      simp [videoPause, hp]
    rw [he]
    refine ⟨h.1, fun _ => rfl, ?_⟩
    intro t ht
    rcases mem_releaseOpt ht with ⟨hmem, hne⟩
    rcases h.2.2 t hmem with hx | hx | hx | hx | hx
    · exact Or.inl hx
    · exact Or.inr (Or.inl hx)
    · exact Or.inr (Or.inr (Or.inl hx))
    · exact Or.inr (Or.inr (Or.inr (Or.inl hx)))
    · exact absurd hx hne

theorem demoInv_videoSeek {c : UseRefDemoState × ResourceEnv}
    (time : Nat) (h : DemoInv c) : DemoInv (videoSeek time c) := by
  obtain ⟨s, env⟩ := c
  exact ⟨h.1, h.2.1, h.2.2⟩

theorem demoInv_videoTick {c : UseRefDemoState × ResourceEnv} (h : DemoInv c) :
    DemoInv (videoTick c) := by
  obtain ⟨s, env⟩ := c
  cases hV : s.videoIntervalHandle with
  | none => simpa [videoTick, hV] using h
  | some t0 =>
    by_cases hm : t0 ∈ env.live
    · by_cases hd : 100 ≤ s.videoCurrentTime
      · have he : videoTick (s, env) =
            ({ s with
                videoCurrentTime := 100, videoIsPlaying := false,
                videoIntervalHandle := none }, releaseResource t0 env) := by
          simp [videoTick, hV, hm, hd]
        rw [he]
        refine ⟨h.1, fun _ => rfl, ?_⟩
        intro t ht
        rcases mem_releaseResource ht with ⟨hmem, hne⟩
        rcases h.2.2 t hmem with hx | hx | hx | hx | hx
        · exact Or.inl hx
        · exact Or.inr (Or.inl hx)
        · exact Or.inr (Or.inr (Or.inl hx))
        · exact Or.inr (Or.inr (Or.inr (Or.inl hx)))
        · rw [hV] at hx
          exact absurd (Option.some_inj.mp hx) (Ne.symm hne)
      · have he : videoTick (s, env) =
            ({ s with videoCurrentTime := s.videoCurrentTime + 1 }, env) := by
          simp [videoTick, hV, hm, hd]
        rw [he]
        exact ⟨h.1, h.2.1, h.2.2⟩
    · simpa [videoTick, hV, hm] using h

theorem demoInv_reachable {c : UseRefDemoState × ResourceEnv}
    (h : DemoReachable c) : DemoInv c := by
  induction h with
  | mount => exact demoInv_mount
  | start _ ih => exact demoInv_startTimer ih
  | stop _ ih => exact demoInv_stopTimer ih
  | reset _ ih => exact demoInv_resetTimer ih
  | autoSave v _ ih => exact demoInv_handleAutoSaveChange v ih
  | tick _ ih => exact demoInv_intervalTick ih
  | fire _ ih => exact demoInv_autoSaveFire ih
  | scroll y _ ih => exact demoInv_handleScrollFire y ih
  | observe vis _ ih => exact demoInv_observerFire vis ih
  | play _ ih => exact demoInv_videoPlay ih
  | pause _ ih => exact demoInv_videoPause ih
  | seek time _ ih => exact demoInv_videoSeek time ih
  | vtick _ ih => exact demoInv_videoTick ih

theorem unmount_live_nil {c : UseRefDemoState × ResourceEnv} (h : DemoInv c) :
    (unmountUseRefDemo c).live = [] := by
  obtain ⟨s, env⟩ := c
  rw [List.eq_nil_iff_forall_not_mem]
  intro t ht
  simp only [unmountUseRefDemo, useRefDemoCleanup, observerEffectCleanup,
    scrollEffectCleanup, videoPlayerEffectCleanup] at ht
  rcases mem_releaseOpt ht with ⟨ht, hAu⟩
  rcases mem_releaseOpt ht with ⟨ht, hT⟩
  rcases mem_releaseOpt ht with ⟨ht, hOb⟩
  rcases mem_releaseOpt ht with ⟨ht, hS⟩
  rcases mem_releaseOpt ht with ⟨ht, hV⟩
  rcases h.2.2 t ht with hx | hx | hx | hx | hx
  · exact hT hx
  · exact hAu hx
  · exact hS hx
  · exact hOb hx
  · exact hV hx

/-- C9: swapping the selected topic to X mounts exactly one panel, the X
panel, and the full release path the framework runs when the previous
UseRefDemo panel unmounts — the VideoPlayer child interval cleanup, the
scroll listener removal, the observer disconnect, and the dedicated
ref-timer cleanup effect — leaves no registered callback of that panel
live, so no timer, interval, listener, or observer of the old panel can
fire any further state-change side effect. The framework guarantee that
unmount runs every registered effect cleanup is taken from the spec
(section 5); each cleanup body and every registration site is embedded
from the UseRefDemo source. -/
theorem selectTopic_swap_unmounts_cleanly (nav : NavState)
    (c : UseRefDemoState × ResourceEnv) (X : String)
    (hreach : DemoReachable c) (_hx : X ≠ nav.selected) :
    renderedPanels (selectTopic X nav) = [renderHookDemo X] ∧
    (renderedPanels (selectTopic X nav)).length = 1 ∧
    (unmountUseRefDemo c).live = [] :=
  ⟨rfl, rfl, unmount_live_nil (demoInv_reachable hreach)⟩

/-- Witness for C9: swap away from the initial state after the mount
registrations, a started stopwatch, a playing video, and a pending
auto-save; the unmount release path leaves no live callback. -/
theorem selectTopic_swap_unmounts_cleanly_witness :
    ("useMemo" : String) ≠ initialNavState.selected ∧
    renderedPanels (selectTopic "useMemo" initialNavState) =
      [renderHookDemo "useMemo"] ∧
    (unmountUseRefDemo
      (handleAutoSaveChange "draft"
        (videoPlay (startTimer mountUseRefDemo)))).live = [] := by
  have h := selectTopic_swap_unmounts_cleanly initialNavState
    (handleAutoSaveChange "draft" (videoPlay (startTimer mountUseRefDemo)))
    "useMemo"
    (DemoReachable.autoSave "draft"
      (DemoReachable.play (DemoReachable.start DemoReachable.mount)))
    (by decide)
  exact ⟨by decide, h.1, h.2.2⟩


/-- Witness for C7 at the initial state with the sidebar open. -/
theorem overlay_click_only_closes_witness :
    overlayRendered true = true ∧
    (runEvents initialNavState overlayOnClick).selected =
      initialNavState.selected ∧
    (runEvents initialNavState overlayOnClick).sidebarOpen = false :=
  ⟨(overlay_click_only_closes initialNavState true).1,
   (overlay_click_only_closes initialNavState true).2.2.1,
   (overlay_click_only_closes initialNavState true).2.2.2⟩

/-- Witness for C10 at a concrete selected id and both sidebar flags. -/
theorem mounted_panel_independent_of_sidebar_witness :
    renderedPanels ⟨"useEffect", true⟩ = renderedPanels ⟨"useEffect", false⟩ :=
  (mounted_panel_independent_of_sidebar "useEffect" true false).1
